import Mathlib

/-!
A verification development for the consensus core of a Raft node
(`src/async-raft/src/core/mod.rs`).  The data model and the operations
below are a shallow embedding of the source: pure Lean functions mirror
the Rust methods of `RaftCore`, `CandidateState` and
`ReplicationEventListener`; channels, timers, tracing and spawned tasks
are represented by explicit parameters and result values (a fresh
election-timeout draw is passed in as a parameter, a spawned compaction
task is reported as a `Bool` result, replies sent on oneshot channels
are returned as values).  Machine integers are modelled as `Nat`; the
one place where `u64` underflow matters (the threshold subtraction in
`trigger_log_compaction_if_needed`) uses an explicit wrapping
subtraction modulo `2 ^ 64`.
-/

namespace AsyncRaft

/-- A node id (`NodeId = u64` in the source). -/
abbrev NodeId := Nat

/-- `storage::HardState`: the durable part of the node state. -/
structure HardState where
  current_term : Nat
  voted_for : Option NodeId
deriving DecidableEq

/-- `raft::MembershipConfig`: the cluster membership.  `members` is the
current set of voting members; `members_after_consensus` is present
exactly while the cluster is in joint consensus. -/
structure MembershipConfig where
  members : Finset NodeId
  members_after_consensus : Option (Finset NodeId)
deriving DecidableEq

/-- Modelled from the spec: `MembershipConfig::contains` lives in
`raft.rs`, which is not among the sources.  The spec renders the calls
`self.membership.contains(&self.id)` of `set_target_state` and
`update_membership` as "this node is not in `members`", so containment
is membership in the `members` set. -/
def MembershipConfig.contains (cfg : MembershipConfig) (x : NodeId) : Bool :=
  decide (x ∈ cfg.members)

/-- Modelled from the spec: `MembershipConfig::new_initial` builds the
initial single-node membership used as a placeholder until the real
membership is loaded from storage. -/
def MembershipConfig.new_initial (id : NodeId) : MembershipConfig :=
  { members := {id}, members_after_consensus := none }

/-- `core::State`: all possible states of a Raft node. -/
inductive State where
  | NonVoter
  | Follower
  | Candidate
  | Leader
  | Shutdown
deriving DecidableEq

/-- `State::is_non_voter`. -/
def State.is_non_voter : State → Bool
  | State.NonVoter => true
  | _ => false

/-- `State::is_follower`. -/
def State.is_follower : State → Bool
  | State.Follower => true
  | _ => false

/-- `State::is_candidate`. -/
def State.is_candidate : State → Bool
  | State.Candidate => true
  | _ => false

/-- `State::is_leader`. -/
def State.is_leader : State → Bool
  | State.Leader => true
  | _ => false

/-- `core::SnapshotState`: the node's current snapshot activity.  The
abort handle, broadcast sender and snapshot writer of the source carry
no consensus state and are omitted. -/
inductive SnapshotState where
  | Snapshotting (through : Nat)
  | Streaming (offset : Nat) (id : String)
deriving DecidableEq

/-- `config::SnapshotPolicy`. -/
inductive SnapshotPolicy where
  | LogsSinceLast (threshold : Nat)
deriving DecidableEq

/-- The part of `config::Config` read by the core logic under
verification. -/
structure Config where
  snapshot_policy : SnapshotPolicy
deriving DecidableEq

/-- The consensus state owned by `RaftCore`.  Channels, the network and
storage handles, and the `Instant`-typed timer fields are not part of
the consensus state; the two timer fields are modelled as abstract
`Option Nat` timestamps.  `persisted_hard_state` models the hard state
most recently written to storage via `save_hard_state` (in the source
this lives behind the `RaftStorage` handle). -/
structure RaftCore where
  id : NodeId
  config : Config
  membership : MembershipConfig
  target_state : State
  commit_index : Nat
  last_applied : Nat
  current_term : Nat
  current_leader : Option NodeId
  voted_for : Option NodeId
  last_log_index : Nat
  last_log_term : Nat
  snapshot_state : Option SnapshotState
  snapshot_index : Nat
  last_heartbeat : Option Nat
  next_election_timeout : Option Nat
  persisted_hard_state : HardState
deriving DecidableEq

/-- `RaftCore::spawn`: the field values the core starts with before
`main` loads the initial state from storage. -/
def RaftCore.spawn (id : NodeId) (config : Config) : RaftCore :=
  { id := id
    config := config
    membership := MembershipConfig.new_initial id
    target_state := State.Follower
    commit_index := 0
    last_applied := 0
    current_term := 0
    current_leader := none
    voted_for := none
    last_log_index := 0
    last_log_term := 0
    snapshot_state := none
    snapshot_index := 0
    last_heartbeat := none
    next_election_timeout := none
    persisted_hard_state := { current_term := 0, voted_for := none } }

/-- `storage::InitialState`: what `get_initial_state` returns. -/
structure InitialState where
  last_log_index : Nat
  last_log_term : Nat
  hard_state : HardState
  membership : MembershipConfig
  last_applied_log : Nat
deriving DecidableEq

/-- `storage::CurrentSnapshotData`, as read at startup (only `index` is
consumed by `main`; the snapshot bytes are opaque and omitted). -/
structure CurrentSnapshot where
  index : Nat
  term : Nat
  membership : MembershipConfig
deriving DecidableEq

/-- The initialization prefix of `RaftCore::main` (lines 141-179 of the
source): load the initial state from storage, force `commit_index` to
0, take the snapshot index from the most recent snapshot if one exists,
and seed `target_state` from the recovered membership and log. -/
def main_init (core : RaftCore) (state : InitialState) (snapshot : Option CurrentSnapshot) :
    RaftCore :=
  let core1 : RaftCore :=
    { core with
      last_log_index := state.last_log_index
      last_log_term := state.last_log_term
      current_term := state.hard_state.current_term
      voted_for := state.hard_state.voted_for
      membership := state.membership
      last_applied := state.last_applied_log
      commit_index := 0
      persisted_hard_state := state.hard_state }
  let core2 : RaftCore :=
    match snapshot with
    | some snap => { core1 with snapshot_index := snap.index }
    | none => core1
  let is_only_configured_member :=
    core2.membership.members.card == 1 && core2.membership.contains core2.id
  if is_only_configured_member && core2.last_log_index != 0 then
    { core2 with target_state := State.Leader }
  else if !is_only_configured_member then
    { core2 with target_state := State.Follower }
  else
    { core2 with target_state := State.NonVoter }

/-- `RaftCore::save_hard_state`: persist `(current_term, voted_for)`. -/
def save_hard_state (core : RaftCore) : RaftCore :=
  { core with
    persisted_hard_state :=
      { current_term := core.current_term, voted_for := core.voted_for } }

/-- `RaftCore::set_target_state`, exactly as written in the source: the
NonVoter-coercion branch assigns `target_state` and then the
unconditional assignment that follows overwrites it. -/
def set_target_state (core : RaftCore) (target : State) : RaftCore :=
  let core1 : RaftCore :=
    if target = State.Follower && !core.membership.contains core.id then
      { core with target_state := State.NonVoter }
    else
      core
  { core1 with target_state := target }

/-- `RaftCore::update_next_election_timeout`: unconditionally store a
freshly drawn deadline (the draw `Instant::now() + rand` is passed in
as the parameter `fresh`). -/
def update_next_election_timeout (core : RaftCore) (fresh : Nat) : RaftCore :=
  { core with next_election_timeout := some fresh }

/-- `core::UpdateCurrentLeader`. -/
inductive UpdateCurrentLeader where
  | Unknown
  | OtherNode (target : NodeId)
  | ThisNode
deriving DecidableEq

/-- `RaftCore::update_current_leader`. -/
def update_current_leader (core : RaftCore) (update : UpdateCurrentLeader) : RaftCore :=
  match update with
  | UpdateCurrentLeader.ThisNode => { core with current_leader := some core.id }
  | UpdateCurrentLeader.OtherNode target => { core with current_leader := some target }
  | UpdateCurrentLeader.Unknown => { core with current_leader := none }

/-- `RaftCore::update_current_term`: update term and vote together, and
only when the new term is greater than the current one. -/
def update_current_term (core : RaftCore) (new_term : Nat) (voted_for : Option NodeId) :
    RaftCore :=
  if core.current_term < new_term then
    { core with current_term := new_term, voted_for := voted_for }
  else
    core

/-- `2 ^ 64`, the modulus of `u64` arithmetic. -/
def u64_mod : Nat := 18446744073709551616

/-- `u64` wrapping subtraction: what `a - b` computes in the source
(release profile) when `a` and `b` are below `2 ^ 64`. -/
def u64_wrapping_sub (a b : Nat) : Nat :=
  (a % u64_mod + (u64_mod - b % u64_mod)) % u64_mod

/-- The threshold carried by the snapshot policy (the source
destructures `let SnapshotPolicy::LogsSinceLast(threshold) = ...`). -/
def snapshot_threshold (config : Config) : Nat :=
  match config.snapshot_policy with
  | SnapshotPolicy.LogsSinceLast threshold => threshold

/-- `RaftCore::trigger_log_compaction_if_needed`.  The returned `Bool`
records whether a compaction task was spawned.  The subtraction
`through_index - snapshot_index` is the source's `u64` subtraction,
modelled as wrapping. -/
def trigger_log_compaction_if_needed (core : RaftCore) : RaftCore × Bool :=
  if core.snapshot_state.isSome then
    (core, false)
  else
    let threshold := snapshot_threshold core.config
    let through_index := min core.commit_index core.last_log_index
    if through_index = 0 then
      (core, false)
    else if u64_wrapping_sub through_index core.snapshot_index < threshold then
      (core, false)
    else
      ({ core with snapshot_state := some (SnapshotState.Snapshotting through_index) }, true)

/-- `error::InitializeError`, restricted to the variant produced by the
core (`NotAllowed`); `error.rs` is not among the sources. -/
inductive InitializeError where
  | NotAllowed
deriving DecidableEq

/-- `error::ChangeConfigError`, restricted to the variants named by the
spec; `error.rs` is not among the sources. -/
inductive ChangeConfigError where
  | NodeNotLeader (leader : Option NodeId)
  | NotAllowedChange
deriving DecidableEq

/-- `RaftCore::reject_init_with_config`: the value sent on the caller's
oneshot channel. -/
def reject_init_with_config (core : RaftCore) : InitializeError :=
  InitializeError.NotAllowed

/-- `RaftCore::reject_config_change_not_leader`: the value sent on the
caller's oneshot channel. -/
def reject_config_change_not_leader (core : RaftCore) : ChangeConfigError :=
  ChangeConfigError.NodeNotLeader core.current_leader

/-- The application-originated admin messages of `raft::RaftMsg` that
the role drivers dispatch on (`Init` models `RaftMsg::Initialize`). -/
inductive AdminMsg where
  | AddNonVoter (target : NodeId)
  | ChangeMembership (members : Finset NodeId)
  | Init (members : Finset NodeId)
deriving DecidableEq

/-- The reply a role driver sends for an admin message.  `Handled`
marks the arms that dispatch into `admin.rs` (the Leader's
`add_member` / `change_membership` and the NonVoter's
`handle_init_with_config`), which is not among the sources. -/
inductive AdminReply where
  | ConfigChangeErr (err : ChangeConfigError)
  | InitErr (err : InitializeError)
  | Handled
deriving DecidableEq

/-- The admin-message arms of `LeaderState::run`'s select loop. -/
def leader_handle_admin_msg (core : RaftCore) (msg : AdminMsg) : RaftCore × AdminReply :=
  match msg with
  | AdminMsg.Init _ => (core, AdminReply.InitErr (reject_init_with_config core))
  | AdminMsg.AddNonVoter _ => (core, AdminReply.Handled)
  | AdminMsg.ChangeMembership _ => (core, AdminReply.Handled)

/-- The admin-message arms of `CandidateState::run`'s select loop. -/
def candidate_handle_admin_msg (core : RaftCore) (msg : AdminMsg) : RaftCore × AdminReply :=
  match msg with
  | AdminMsg.Init _ => (core, AdminReply.InitErr (reject_init_with_config core))
  | AdminMsg.AddNonVoter _ =>
    (core, AdminReply.ConfigChangeErr (reject_config_change_not_leader core))
  | AdminMsg.ChangeMembership _ =>
    (core, AdminReply.ConfigChangeErr (reject_config_change_not_leader core))

/-- The admin-message arms of `FollowerState::run`'s select loop. -/
def follower_handle_admin_msg (core : RaftCore) (msg : AdminMsg) : RaftCore × AdminReply :=
  match msg with
  | AdminMsg.Init _ => (core, AdminReply.InitErr (reject_init_with_config core))
  | AdminMsg.AddNonVoter _ =>
    (core, AdminReply.ConfigChangeErr (reject_config_change_not_leader core))
  | AdminMsg.ChangeMembership _ =>
    (core, AdminReply.ConfigChangeErr (reject_config_change_not_leader core))

/-- The admin-message arms of `NonVoterState::run`'s select loop. -/
def non_voter_handle_admin_msg (core : RaftCore) (msg : AdminMsg) : RaftCore × AdminReply :=
  match msg with
  | AdminMsg.Init _ => (core, AdminReply.Handled)
  | AdminMsg.AddNonVoter _ =>
    (core, AdminReply.ConfigChangeErr (reject_config_change_not_leader core))
  | AdminMsg.ChangeMembership _ =>
    (core, AdminReply.ConfigChangeErr (reject_config_change_not_leader core))

/-- The per-term tallies of `core::CandidateState`. -/
structure CandidateState where
  votes_granted_old : Nat
  votes_needed_old : Nat
  votes_granted_new : Nat
  votes_needed_new : Nat
deriving DecidableEq

/-- `CandidateState::new`: all tallies start at zero. -/
def CandidateState.new : CandidateState :=
  { votes_granted_old := 0, votes_needed_old := 0
    votes_granted_new := 0, votes_needed_new := 0 }

/-- The per-term setup at the top of `CandidateState::run`'s outer loop
(lines 721-741 of the source): reset the tallies, redraw the election
deadline (the fresh draw is the parameter `fresh_timeout`), increment
the term, vote for self, forget the current leader and persist the hard
state, in that order. -/
def candidate_election_round_setup (cs : CandidateState) (core : RaftCore)
    (fresh_timeout : Nat) : CandidateState × RaftCore :=
  let cs1 : CandidateState :=
    { cs with
      votes_granted_old := 1
      votes_needed_old := core.membership.members.card / 2 + 1 }
  let cs2 : CandidateState :=
    match core.membership.members_after_consensus with
    | some nodes =>
      { cs1 with
        votes_granted_new := 1
        votes_needed_new := nodes.card / 2 + 1 }
    | none => cs1
  let core1 := update_next_election_timeout core fresh_timeout
  let core2 : RaftCore := { core1 with current_term := core1.current_term + 1 }
  let core3 : RaftCore := { core2 with voted_for := some core2.id }
  let core4 := update_current_leader core3 UpdateCurrentLeader.Unknown
  let core5 := save_hard_state core4
  (cs2, core5)

/-- `raft::EntryPayload`, with the application payload type modelled
as `Nat`. -/
inductive EntryPayload where
  | Blank
  | Normal (data : Nat)
  | ConfigChange (membership : MembershipConfig)
  | SnapshotPointer
deriving DecidableEq

/-- `raft::Entry`: a Raft log entry. -/
structure Entry where
  term : Nat
  index : Nat
  payload : EntryPayload
deriving DecidableEq

/-- Modelled from the spec: the storage's
`get_log_entries(from_inclusive, to_exclusive)` returns the ordered log
entries with indices in the half-open range; `RaftStorage` is an
external capability, so the log is modelled as the indexed family of
its entries. -/
def get_log_entries (log : Nat → Entry) (start stop : Nat) : List Entry :=
  (List.range' start (stop - start)).map log

/-- The consensus fields of `core::ReplicationEventListener`, the apply
worker run on followers and non-voters. -/
structure ReplicationEventListenerState where
  last_applied : Nat
  last_log_index : Nat
  commit_index : Nat
deriving DecidableEq

/-- The filter-map the apply worker applies to fetched entries: keep
only `EntryPayload::Normal` payloads, paired with their index. -/
def entry_normal_data (e : Entry) : Option (Nat × Nat) :=
  match e.payload with
  | EntryPayload.Normal inner => some (e.index, inner)
  | _ => none

/-- `ReplicationEventListener::replicate_to_state_machine_if_needed`.
Returns the updated worker state, the `(index, data)` pairs delivered
to the state machine's `replicate_to_state_machine` hook (empty when
the hook is not invoked), and the `report_metrics` flag. -/
def replicate_to_state_machine_if_needed (st : ReplicationEventListenerState)
    (log : Nat → Entry) : ReplicationEventListenerState × List (Nat × Nat) × Bool :=
  if st.last_applied < st.commit_index then
    let stop := min st.commit_index st.last_log_index + 1
    let entries := get_log_entries log (st.last_applied + 1) stop
    let stepped :=
      match entries.getLast? with
      | some e => ({ st with last_applied := e.index }, true)
      | none => (st, false)
    let data_entries := entries.filterMap entry_normal_data
    (stepped.1, data_entries, stepped.2)
  else
    (st, [], false)

/-- A sample runtime config: snapshot after 5 new log entries. -/
def example_config : Config :=
  { snapshot_policy := SnapshotPolicy.LogsSinceLast 5 }

/-- A recovered initial state whose state machine had already applied
up to index 5 when the node went down. -/
def recovered_init_state : InitialState :=
  { last_log_index := 5
    last_log_term := 1
    hard_state := { current_term := 1, voted_for := none }
    membership := { members := {1, 2, 3}, members_after_consensus := none }
    last_applied_log := 5 }

/-- A core whose node id (1) is not in the cluster membership. -/
def c2_unmembered_core : RaftCore :=
  { RaftCore.spawn 1 example_config with
    membership := { members := {2, 3}, members_after_consensus := none } }

/-- A sample log: the entry at each index carries that index; even
indices hold Normal payloads, odd indices are Blank. -/
def sample_log : Nat → Entry := fun i =>
  { term := 1
    index := i
    payload := if i % 2 = 0 then EntryPayload.Normal (10 * i) else EntryPayload.Blank }

/-- A core in joint consensus, about to campaign. -/
def joint_candidate_core : RaftCore :=
  { RaftCore.spawn 1 example_config with
    membership := { members := {1, 2}, members_after_consensus := some {1, 2, 3} }
    current_term := 7 }

/-- A core for which the compaction threshold (5) is met:
`min(10, 12) - 2 = 8 ≥ 5`. -/
def compaction_due_core : RaftCore :=
  { RaftCore.spawn 1 example_config with
    commit_index := 10
    last_log_index := 12
    snapshot_index := 2 }

/-- A core whose snapshot boundary (50) is ahead of
`min(commit_index, last_log_index) = 10`, as arises after recovery
resets `commit_index` to 0 and it then advances below the snapshot
boundary. -/
def snapshot_ahead_core : RaftCore :=
  { RaftCore.spawn 1 example_config with
    commit_index := 10
    last_log_index := 50
    snapshot_index := 50 }

/-- A core whose snapshot boundary (3) is behind
`min(commit_index, last_log_index) = 10`. -/
def snapshot_behind_core : RaftCore :=
  { RaftCore.spawn 1 example_config with
    commit_index := 10
    last_log_index := 50
    snapshot_index := 3 }

/-- C7: given the precondition `new_term > current_term`,
`update_current_term(new_term, voted_for)` sets `current_term` to
`new_term` and `voted_for` to the given value in the same step — both
fields are updated together, never one without the other. -/
theorem update_current_term_sets_both (core : RaftCore) (new_term : Nat)
    (vf : Option NodeId) (h : core.current_term < new_term) :
    (update_current_term core new_term vf).current_term = new_term ∧
      (update_current_term core new_term vf).voted_for = vf := by
  unfold update_current_term
  rw [if_pos h]
  exact ⟨rfl, rfl⟩

theorem update_current_term_sets_both_witness :
    (update_current_term (RaftCore.spawn 1 example_config) 3 (some 2)).current_term = 3 ∧
      (update_current_term (RaftCore.spawn 1 example_config) 3 (some 2)).voted_for = some 2 :=
  update_current_term_sets_both (RaftCore.spawn 1 example_config) 3 (some 2) (by decide)

/-- C10: for every `new_term ≤ current_term` and every `voted_for`
argument, `update_current_term(new_term, voted_for)` is a no-op: the
whole core state, `current_term` and `voted_for` included, is
unchanged. -/
theorem update_current_term_noop (core : RaftCore) (new_term : Nat)
    (vf : Option NodeId) (h : new_term ≤ core.current_term) :
    update_current_term core new_term vf = core := by
  unfold update_current_term
  rw [if_neg (by omega)]

theorem update_current_term_noop_witness :
    update_current_term (RaftCore.spawn 1 example_config) 0 (some 2) =
      RaftCore.spawn 1 example_config :=
  update_current_term_noop (RaftCore.spawn 1 example_config) 0 (some 2) (by decide)

/-- C2 (code-bug evaluation): for a node whose id is not in the
membership, `set_target_state(Follower)` leaves `target_state` at
`Follower` instead of coercing it to `NonVoter`: the coercion branch of
the source is immediately overwritten by the unconditional assignment
that follows it, contradicting the function's own stated purpose of
upholding the invariants. -/
theorem set_target_state_keeps_follower_for_non_member :
    c2_unmembered_core.membership.contains c2_unmembered_core.id = false ∧
      (set_target_state c2_unmembered_core State.Follower).target_state = State.Follower := by
  decide

/-- C8: in the Follower, Candidate and NonVoter select loops, an
AddNonVoter or ChangeMembership request is answered with
`NodeNotLeader` carrying the `current_leader` hint, and in the Leader,
Candidate and Follower loops an Initialize request is answered with
`NotAllowed`; in each of these arms the core consensus state is
returned unchanged. -/
theorem non_leader_admin_rejections (core : RaftCore) (target : NodeId)
    (ms : Finset NodeId) :
    follower_handle_admin_msg core (AdminMsg.AddNonVoter target) =
        (core, AdminReply.ConfigChangeErr (ChangeConfigError.NodeNotLeader core.current_leader)) ∧
      follower_handle_admin_msg core (AdminMsg.ChangeMembership ms) =
        (core, AdminReply.ConfigChangeErr (ChangeConfigError.NodeNotLeader core.current_leader)) ∧
      candidate_handle_admin_msg core (AdminMsg.AddNonVoter target) =
        (core, AdminReply.ConfigChangeErr (ChangeConfigError.NodeNotLeader core.current_leader)) ∧
      candidate_handle_admin_msg core (AdminMsg.ChangeMembership ms) =
        (core, AdminReply.ConfigChangeErr (ChangeConfigError.NodeNotLeader core.current_leader)) ∧
      non_voter_handle_admin_msg core (AdminMsg.AddNonVoter target) =
        (core, AdminReply.ConfigChangeErr (ChangeConfigError.NodeNotLeader core.current_leader)) ∧
      non_voter_handle_admin_msg core (AdminMsg.ChangeMembership ms) =
        (core, AdminReply.ConfigChangeErr (ChangeConfigError.NodeNotLeader core.current_leader)) ∧
      leader_handle_admin_msg core (AdminMsg.Init ms) =
        (core, AdminReply.InitErr InitializeError.NotAllowed) ∧
      candidate_handle_admin_msg core (AdminMsg.Init ms) =
        (core, AdminReply.InitErr InitializeError.NotAllowed) ∧
      follower_handle_admin_msg core (AdminMsg.Init ms) =
        (core, AdminReply.InitErr InitializeError.NotAllowed) :=
  ⟨rfl, rfl, rfl, rfl, rfl, rfl, rfl, rfl, rfl⟩

/-- C9 counterexample: a core state that reaches the threshold
comparison of `trigger_log_compaction_if_needed` (no snapshot activity,
`min(commit_index, last_log_index) > 0`) while
`snapshot_index > min(commit_index, last_log_index)`, so the `u64`
subtraction underflows there; with wrapping semantics the trigger even
fires although only 10 entries are below the commit point. -/
theorem snapshot_sub_underflow_counterexample :
    snapshot_ahead_core.snapshot_state = none ∧
      0 < min snapshot_ahead_core.commit_index snapshot_ahead_core.last_log_index ∧
      ¬ snapshot_ahead_core.snapshot_index ≤
          min snapshot_ahead_core.commit_index snapshot_ahead_core.last_log_index ∧
      (trigger_log_compaction_if_needed snapshot_ahead_core).2 = true := by
  decide

/-- C9 (amended): the `u64` subtraction
`min(commit_index, last_log_index) - snapshot_index` does not underflow
exactly under the hypothesis
`snapshot_index ≤ min(commit_index, last_log_index)`: there the
wrapping result equals the exact difference.  (The hypothesis is not an
invariant of the guarded states, as the counterexample shows.) -/
theorem u64_sub_no_underflow_of_snapshot_le (core : RaftCore)
    (hb : min core.commit_index core.last_log_index < u64_mod)
    (hle : core.snapshot_index ≤ min core.commit_index core.last_log_index) :
    u64_wrapping_sub (min core.commit_index core.last_log_index) core.snapshot_index =
      min core.commit_index core.last_log_index - core.snapshot_index := by
  unfold u64_wrapping_sub u64_mod at *
  omega

theorem u64_sub_no_underflow_witness :
    u64_wrapping_sub
        (min snapshot_behind_core.commit_index snapshot_behind_core.last_log_index)
        snapshot_behind_core.snapshot_index =
      min snapshot_behind_core.commit_index snapshot_behind_core.last_log_index -
        snapshot_behind_core.snapshot_index :=
  u64_sub_no_underflow_of_snapshot_le snapshot_behind_core (by decide) (by decide)

/-- C6: `trigger_log_compaction_if_needed` spawns a compaction task and
sets `snapshot_state` to `Snapshotting` with
`through = min(commit_index, last_log_index)` if and only if no
snapshot state is active, that minimum is positive, and the (source's
`u64`) subtraction `min(commit_index, last_log_index) - snapshot_index`
reaches the policy threshold; in every other case the state is
unchanged and nothing is spawned, and `snapshot_index` is unchanged in
all cases. -/
theorem trigger_log_compaction_spec (core : RaftCore) :
    ((trigger_log_compaction_if_needed core).2 = true ↔
        core.snapshot_state = none ∧
          min core.commit_index core.last_log_index ≠ 0 ∧
          snapshot_threshold core.config ≤
            u64_wrapping_sub (min core.commit_index core.last_log_index)
              core.snapshot_index) ∧
      ((trigger_log_compaction_if_needed core).2 = true →
        (trigger_log_compaction_if_needed core).1 =
          { core with
            snapshot_state :=
              some (SnapshotState.Snapshotting
                (min core.commit_index core.last_log_index)) }) ∧
      ((trigger_log_compaction_if_needed core).2 = false →
        (trigger_log_compaction_if_needed core).1 = core) ∧
      (trigger_log_compaction_if_needed core).1.snapshot_index = core.snapshot_index := by
  unfold trigger_log_compaction_if_needed
  cases hs : core.snapshot_state with
  | some s => simp [hs]
  | none =>
    by_cases h0 : min core.commit_index core.last_log_index = 0
    · simp [hs, h0]
    · by_cases hlt :
        u64_wrapping_sub (min core.commit_index core.last_log_index) core.snapshot_index <
          snapshot_threshold core.config
      · simp [hs, h0, hlt]
      · simp [hs, h0, hlt]
        omega

theorem trigger_log_compaction_spec_witness :
    (trigger_log_compaction_if_needed compaction_due_core).1.snapshot_state =
      some (SnapshotState.Snapshotting 10) := by
  have h := (trigger_log_compaction_spec compaction_due_core).2.1 (by decide)
  rw [h]
  decide

/-- C1 counterexample: initializing from a recovered state whose
`last_applied_log` is 5 yields `last_applied = 5 > 0 = commit_index`,
violating `last_applied ≤ commit_index`. -/
theorem init_invariant_counterexample :
    ¬ (main_init (RaftCore.spawn 1 example_config) recovered_init_state none).last_applied ≤
        (main_init (RaftCore.spawn 1 example_config) recovered_init_state none).commit_index := by
  decide

/-- C1 (amended): after node initialization `commit_index = 0` while
`last_applied` equals the storage's `last_applied_log`; hence
`commit_index ≤ last_log_index` always holds, but
`last_applied ≤ commit_index` holds precisely when the recovered
`last_applied_log` is 0 (a fresh node), not for every recovered initial
state. -/
theorem main_init_commit_and_applied (id : NodeId) (config : Config)
    (state : InitialState) (snapshot : Option CurrentSnapshot) :
    (main_init (RaftCore.spawn id config) state snapshot).commit_index = 0 ∧
      (main_init (RaftCore.spawn id config) state snapshot).last_applied =
        state.last_applied_log ∧
      (main_init (RaftCore.spawn id config) state snapshot).commit_index ≤
        (main_init (RaftCore.spawn id config) state snapshot).last_log_index ∧
      ((main_init (RaftCore.spawn id config) state snapshot).last_applied ≤
          (main_init (RaftCore.spawn id config) state snapshot).commit_index ↔
        state.last_applied_log = 0) := by
  unfold main_init
  cases snapshot <;> dsimp only <;> split <;> (try split) <;>
    simp [Nat.le_zero]

/-- The membership set is the singleton of `a` exactly when it has one
element and contains `a`. -/
theorem card_eq_one_and_mem_iff {s : Finset Nat} {a : Nat} :
    s.card = 1 ∧ a ∈ s ↔ s = {a} := by
  constructor
  · rintro ⟨hc, hm⟩
    obtain ⟨b, rfl⟩ := Finset.card_eq_one.mp hc
    rw [Finset.mem_singleton] at hm
    rw [hm]
  · rintro rfl
    exact ⟨Finset.card_singleton a, Finset.mem_singleton_self a⟩

/-- The `is_only_configured_member` test of `main`, as a Boolean
equation. -/
theorem is_only_bool_eq (s : Finset Nat) (a : Nat) :
    (s.card == 1 && decide (a ∈ s)) = decide (s = {a}) := by
  by_cases h : s = {a}
  · obtain ⟨h1, h2⟩ := card_eq_one_and_mem_iff.mpr h
    simp [h, h1, h2]
  · by_cases hc : s.card = 1
    · have hm2 : ¬ a ∈ s := fun hx => h (card_eq_one_and_mem_iff.mp ⟨hc, hx⟩)
      simp [h, hc, hm2]
    · simp [h, hc]

/-- C5: after loading the initial state from storage the seeded
`target_state` is Leader when the recovered membership's `members` is
exactly this node and the log is non-empty, NonVoter when it is exactly
this node and the log is empty, and Follower in every other case. -/
theorem main_init_target_state_seed (id : NodeId) (config : Config)
    (state : InitialState) (snapshot : Option CurrentSnapshot) :
    (main_init (RaftCore.spawn id config) state snapshot).target_state =
      if state.membership.members = {id} then
        (if state.last_log_index = 0 then State.NonVoter else State.Leader)
      else State.Follower := by
  unfold main_init
  cases snapshot <;>
    by_cases hm : state.membership.members = {id} <;>
    by_cases hl : state.last_log_index = 0 <;>
    simp [RaftCore.spawn, MembershipConfig.contains, is_only_bool_eq, hm, hl]

/-- C4: at the start of every candidate election round `current_term`
is incremented by exactly one, `voted_for` becomes this node's id, that
hard state is persisted, the election deadline is redrawn, the old-set
tally starts at 1 granted with `⌊|members|/2⌋+1` needed, and, when the
membership carries `members_after_consensus`, the new-set tally starts
at 1 granted with `⌊|members_after_consensus|/2⌋+1` needed — so
leadership requires both tallies to reach their respective
majorities. -/
theorem candidate_election_round_setup_spec (cs : CandidateState) (core : RaftCore)
    (fresh_timeout : Nat) :
    (candidate_election_round_setup cs core fresh_timeout).2.current_term =
        core.current_term + 1 ∧
      (candidate_election_round_setup cs core fresh_timeout).2.voted_for = some core.id ∧
      (candidate_election_round_setup cs core fresh_timeout).2.persisted_hard_state =
        { current_term := core.current_term + 1, voted_for := some core.id } ∧
      (candidate_election_round_setup cs core fresh_timeout).2.next_election_timeout =
        some fresh_timeout ∧
      (candidate_election_round_setup cs core fresh_timeout).1.votes_granted_old = 1 ∧
      (candidate_election_round_setup cs core fresh_timeout).1.votes_needed_old =
        core.membership.members.card / 2 + 1 ∧
      (∀ nodes, core.membership.members_after_consensus = some nodes →
        (candidate_election_round_setup cs core fresh_timeout).1.votes_granted_new = 1 ∧
          (candidate_election_round_setup cs core fresh_timeout).1.votes_needed_new =
            nodes.card / 2 + 1) := by
  unfold candidate_election_round_setup update_next_election_timeout update_current_leader
    save_hard_state
  cases h : core.membership.members_after_consensus <;> simp [h]

theorem candidate_election_round_setup_spec_witness :
    (candidate_election_round_setup CandidateState.new joint_candidate_core 42).2.current_term =
        8 ∧
      (candidate_election_round_setup CandidateState.new joint_candidate_core
          42).1.votes_needed_new =
        ({1, 2, 3} : Finset Nat).card / 2 + 1 := by
  constructor
  · have h := (candidate_election_round_setup_spec CandidateState.new joint_candidate_core 42).1
    rw [h]
    decide
  · exact ((candidate_election_round_setup_spec CandidateState.new joint_candidate_core
      42).2.2.2.2.2.2 {1, 2, 3} rfl).2

/-- A pair produced by `entry_normal_data` carries the entry's
index as its first component. -/
theorem entry_normal_data_fst {e : Entry} {p : Nat × Nat}
    (h : entry_normal_data e = some p) : p.1 = e.index := by
  obtain ⟨t, i, pl⟩ := e
  cases pl with
  | Normal d =>
    simp only [entry_normal_data, Option.some.injEq] at h
    rw [← h]
  | Blank => simp [entry_normal_data] at h
  | ConfigChange m => simp [entry_normal_data] at h
  | SnapshotPointer => simp [entry_normal_data] at h

/-- The last entry returned by `get_log_entries` is the one at index
`stop - 1` (when the range is non-empty). -/
theorem getLast?_get_log_entries (log : Nat → Entry) (start stop : Nat) :
    (get_log_entries log start stop).getLast? =
      if stop - start = 0 then none
      else some (log (start + (stop - start) - 1)) := by
  unfold get_log_entries
  rw [List.getLast?_map, List.getLast?_range']
  split <;> simp

/-- The indices of the Normal-payload entries among the entries at the
given indices, in order. -/
theorem map_fst_filterMap_normal (log : Nat → Entry) (hidx : ∀ i, (log i).index = i) :
    ∀ l : List Nat,
      ((l.map log).filterMap entry_normal_data).map Prod.fst =
        l.filter fun i => (entry_normal_data (log i)).isSome := by
  intro l
  induction l with
  | nil => rfl
  | cons a t ih =>
    simp only [List.map_cons, List.filterMap_cons, List.filter_cons]
    cases h : entry_normal_data (log a) with
    | none => simpa using ih
    | some p =>
      have hp : p.1 = a := by
        rw [entry_normal_data_fst h]
        exact hidx a
      simpa [hp] using ih

/-- C3: for an apply-worker state with `commit_index > last_applied`,
one apply step fetches exactly the log entries with indices in
`(last_applied+1 .. min(commit_index, last_log_index)+1)`, delivers to
the state machine exactly the Normal-payload entries of that range in
index order, and advances `last_applied` to
`min(commit_index, last_log_index)` — the index of the last fetched
entry — even when that entry is not Normal, leaving `commit_index` and
`last_log_index` unchanged; when `commit_index ≤ last_applied` nothing
is fetched or applied and the state is unchanged. -/
theorem replicate_to_state_machine_spec (st : ReplicationEventListenerState)
    (log : Nat → Entry) (hidx : ∀ i, (log i).index = i)
    (hla : st.last_applied ≤ st.last_log_index) :
    (st.last_applied < st.commit_index →
      (replicate_to_state_machine_if_needed st log).2.1 =
          (get_log_entries log (st.last_applied + 1)
              (min st.commit_index st.last_log_index + 1)).filterMap entry_normal_data ∧
        (replicate_to_state_machine_if_needed st log).2.1.map Prod.fst =
          (List.range' (st.last_applied + 1)
              (min st.commit_index st.last_log_index - st.last_applied)).filter
            (fun i => (entry_normal_data (log i)).isSome) ∧
        (replicate_to_state_machine_if_needed st log).1.last_applied =
          min st.commit_index st.last_log_index ∧
        (replicate_to_state_machine_if_needed st log).1.commit_index = st.commit_index ∧
        (replicate_to_state_machine_if_needed st log).1.last_log_index =
          st.last_log_index) ∧
      (st.commit_index ≤ st.last_applied →
        replicate_to_state_machine_if_needed st log = (st, [], false)) := by
  constructor
  · intro hlt
    have hlam : st.last_applied ≤ min st.commit_index st.last_log_index :=
      le_min (Nat.le_of_lt hlt) hla
    unfold replicate_to_state_machine_if_needed
    rw [if_pos hlt]
    dsimp only
    refine ⟨rfl, ?_, ?_, ?_, ?_⟩
    · unfold get_log_entries
      rw [map_fst_filterMap_normal log hidx]
      have harith : min st.commit_index st.last_log_index + 1 - (st.last_applied + 1) =
          min st.commit_index st.last_log_index - st.last_applied := by
        omega
      rw [harith]
    · rw [getLast?_get_log_entries]
      rcases Nat.lt_or_ge st.last_applied (min st.commit_index st.last_log_index) with
        h2 | h2
      · rw [if_neg (by omega)]
        dsimp only
        rw [hidx]
        omega
      · rw [if_pos (by omega)]
        dsimp only
        omega
    · cases hgl : (get_log_entries log (st.last_applied + 1)
          (min st.commit_index st.last_log_index + 1)).getLast? <;> rfl
    · cases hgl : (get_log_entries log (st.last_applied + 1)
          (min st.commit_index st.last_log_index + 1)).getLast? <;> rfl
  · intro hge
    unfold replicate_to_state_machine_if_needed
    rw [if_neg (by omega)]

theorem replicate_to_state_machine_spec_witness :
    (replicate_to_state_machine_if_needed ⟨1, 3, 5⟩ sample_log).1.last_applied =
      min (5 : Nat) 3 :=
  ((replicate_to_state_machine_spec ⟨1, 3, 5⟩ sample_log (fun i => rfl)
      (by decide)).1 (by decide)).2.2.1

end AsyncRaft
